import Mathlib

/-!
Shallow embedding of the artifact resolution and cached acquisition pipeline
of `pb_setup.py` (class `PocketBaseSetup`), together with the CLI port
validation in `main`.  Strings are modelled by Lean `String`, with the Python
operations on them expressed on the underlying character list; machine state
that the code touches (cache directory contents, network responses, the
extracted `pocketbase` file) is passed explicitly.
-/

namespace PbSetup

/-- A release entry of the remote listing; the code reads exactly the
fields `tag_name` and `prerelease` (line 100). -/
structure Release where
  tag_name : String
  prerelease : Bool
deriving DecidableEq

/-- The hardcoded fallback version list returned when every attempt of
`get_pocketbase_versions` failed (line 120). -/
def defaultVersions : List String :=
  ["v0.30.3", "v0.30.2", "v0.30.1", "v0.30.0", "v0.29.3", "v0.29.2",
   "v0.29.1", "v0.29.0", "v0.28.0"]

/-- Retry budget `max_retries = 3` (line 84). -/
def max_retries : Nat := 3

/-- One iteration of the retry loop body (lines 86-106).  The network
response of an attempt is modelled as `Option (List Release)`: `none` stands
for a network error, a non-2xx status, an empty or unparsable body — every
way the body can raise before the filter runs.  A successful response is
filtered to entries not flagged prerelease and truncated to 15 tags; an
empty filtered result also raises (line 106), hence `none`. -/
def attemptVersions : Option (List Release) → Option (List String)
  | none => none
  | some releases =>
      let versions := (releases.filter (fun r => !r.prerelease)).map Release.tag_name
      if versions.isEmpty then none else some (versions.take 15)

/-- Aggregate observation of the retry loop: the outcome (`none` when the
final attempt raised), the number of attempts made, and the list of sleep
durations (seconds) performed between attempts. -/
structure LoopResult where
  outcome : Option (List String)
  attempts : Nat
  sleeps : List Nat
deriving DecidableEq

/-- The retry loop `for attempt in range(max_retries)` (lines 85-114):
`responses i` is what the network yields on attempt `i`.  A failure on a
non-final attempt sleeps 1 second and retries; a failure on the final
attempt re-raises (outcome `none`). -/
def runAttempts (responses : Nat → Option (List Release)) : Nat → Nat → LoopResult
  | _, 0 => ⟨none, 0, []⟩
  | attempt, fuel + 1 =>
    match attemptVersions (responses attempt) with
    | some vs => ⟨some vs, 1, []⟩
    | none =>
      if fuel = 0 then ⟨none, 1, []⟩
      else
        let r := runAttempts responses (attempt + 1) fuel
        ⟨r.outcome, r.attempts + 1, 1 :: r.sleeps⟩

/-- Observable result of `get_pocketbase_versions`. -/
structure CatalogResult where
  versions : List String
  attempts : Nat
  sleeps : List Nat
deriving DecidableEq

/-- `get_pocketbase_versions` (lines 77-120): run the retry loop; when the
loop raises out of its last attempt, the outer handler returns the
hardcoded `defaultVersions` list instead of failing. -/
def get_pocketbase_versions (responses : Nat → Option (List Release)) : CatalogResult :=
  let r := runAttempts responses 0 max_retries
  match r.outcome with
  | some vs => ⟨vs, r.attempts, r.sleeps⟩
  | none => ⟨defaultVersions, r.attempts, r.sleeps⟩

/-- The `os_map` dict literal (lines 189-193). -/
def os_map : List (String × String) :=
  [("linux", "linux"), ("darwin", "darwin"), ("windows", "windows")]

/-- The `arch_map` dict literal (lines 195-199). -/
def arch_map : List (String × String) :=
  [("x86_64", "amd64"), ("arm64", "arm64"), ("amd64", "amd64")]

/-- Python `dict.get(key, default)` on a small literal dict, modelled as an
association list lookup. -/
def dictGet : List (String × String) → String → String → String
  | [], _, dflt => dflt
  | (k, v) :: rest, key, dflt => if k == key then v else dictGet rest key dflt

/-- `os_map.get(self.os_type, 'linux')` (line 201). -/
def osName (os_type : String) : String := dictGet os_map os_type "linux"

/-- `arch_map.get(self.arch, 'amd64')` (line 202). -/
def archName (arch : String) : String := dictGet arch_map arch "amd64"

/-- Python `s.lstrip` of the single character `v` (line 205): removes every
leading occurrence of `v`, not only the first. -/
def lstripV (s : String) : String := String.mk (s.data.dropWhile (fun c => c == 'v'))

/-- `get_pocketbase_download_url` (lines 186-210): returns `(url, filename)`
for the current version and platform strings. -/
def get_pocketbase_download_url (pb_version os_type arch : String) : String × String :=
  let os_name := osName os_type
  let arch_name := archName arch
  let version_num := lstripV pb_version
  let filename :=
    "pocketbase_" ++ version_num ++ "_" ++ os_name ++ "_" ++ arch_name ++ ".zip"
  let url :=
    "https://github.com/pocketbase/pocketbase/releases/download/" ++ pb_version ++
      "/" ++ filename
  (url, filename)

/-- Modelled from the spec: the numeric component as the spec words it,
with one leading `v` stripped from the version identifier (for comparison
with `lstripV`, which the code actually uses). -/
def stripOneLeadingV (s : String) : String :=
  match s.data with
  | c :: rest => if c = 'v' then String.mk rest else s
  | [] => s

/-- Modelled from the spec: the filename the spec words describe, built from
the remainder after one leading `v`. -/
def spec_filename (pb_version os_type arch : String) : String :=
  "pocketbase_" ++ stripOneLeadingV pb_version ++ "_" ++ osName os_type ++ "_" ++
    archName arch ++ ".zip"

/-- Python `str.isdigit` restricted to ASCII input: a nonempty string all of
whose characters are decimal digits (Unicode digit classes outside ASCII
are out of model). -/
def pyIsdigit (s : String) : Bool := !s.data.isEmpty && s.data.all Char.isDigit

/-- Python `s.replace` of the dot by the empty string: removes every dot. -/
def removeDots (s : String) : String := String.mk (s.data.filter (fun c => c != '.'))

/-- Python `s.startswith` of the one-character string `v`. -/
def startsWithV (s : String) : Bool :=
  match s.data with
  | c :: _ => c == 'v'
  | [] => false

/-- Python `s[1:]`: the string without its first character. -/
def pyTail (s : String) : String := String.mk (s.data.drop 1)

/-- The validation of an externally supplied version (line 156):
`startswith('v')` and the remainder with dots removed `isdigit`. -/
def version_valid (s : String) : Bool :=
  startsWithV s && pyIsdigit (removeDots (pyTail s))

/-- Which route `select_version` (lines 152-167) takes for the externally
supplied version: a valid override is kept, anything else falls through to
the catalog path. -/
inductive VersionRoute where
  | fromArgs (v : String)
  | fromCatalog
deriving DecidableEq

/-- The branching of `select_version` on the supplied version (lines 154-160). -/
def select_version_route : Option String → VersionRoute
  | some v => if version_valid v then .fromArgs v else .fromCatalog
  | none => .fromCatalog

/-- The catalog continuation of `select_version` (lines 163-184): when the
catalog result is empty the sentinel branch assigns `latest` (lines
164-167), otherwise the interactive loop ends on some valid index into the
list (modelled as `choice` reduced modulo the length).  The first component
records whether the sentinel branch was taken. -/
def select_version_catalog (versions : List String) (choice : Nat) : Bool × String :=
  if versions.isEmpty then (true, "latest")
  else (false, versions.getD (choice % versions.length) "latest")

/-- Outcome of the CLI port validation in `main` (lines 911-915). -/
inductive MainPortCheck where
  | exit (code : Nat)
  | proceed (port : Option Int)
deriving DecidableEq

/-- `main` (lines 911-915): a supplied `--port` outside `[1024, 65535]`
prints an error and exits with status 1; otherwise execution proceeds. -/
def main_port_check : Option Int → MainPortCheck
  | none => .proceed none
  | some p => if 1024 ≤ p ∧ p ≤ 65535 then .proceed (some p) else .exit 1

/-- The validation branch of `select_port` (lines 125-131), reached when the
port was set from arguments or differs from the default: an out-of-range
value is replaced by the default 8090. -/
def select_port_validate (pb_port : Int) : Int :=
  if 1024 ≤ pb_port ∧ pb_port ≤ 65535 then pb_port else 8090

/-- `get_cache_dir` (lines 212-216): the fixed cache directory under home. -/
def get_cache_dir (home : String) : String := home ++ "/.pb_cache"

/-- The path of a cached archive, `cache_dir / filename` (line 222). -/
def cachePath (home filename : String) : String := get_cache_dir home ++ "/" ++ filename

/-- The extraction and permission phase of `download_pocketbase` (lines
249-266): extract the zip, then chmod the `pocketbase` file to octal 755
(decimal 493) exactly when the raw `os_type` string is `linux` or `darwin`
and the file exists directly under the project directory.  Returns the
boolean result of the phase and the mode applied, if any. -/
def extract_phase (os_type : String) (extractOk pocketbase_exists : Bool) :
    Bool × Option Nat :=
  if extractOk then
    if (os_type == "linux" || os_type == "darwin") && pocketbase_exists then
      (true, some 0o755)
    else (true, none)
  else (false, none)

/-- Observable outcome of one `download_pocketbase` call: the returned
boolean, the archive path used for extraction (if reached), the number of
network transfers performed, the cache contents afterwards, and the chmod
mode applied, if any. -/
structure DownloadOutcome where
  ok : Bool
  zipPath : Option String
  transfers : Nat
  cache : List String
  chmodApplied : Option Nat
deriving DecidableEq

/-- `download_pocketbase` (lines 218-266): compute the filename, look it up
in the cache by name; on a hit use the cached file with no transfer; on a
miss perform one transfer into the cache (`netOk = false` models a transfer
failure: return `False` immediately); finally run the extraction phase. -/
def download_pocketbase (pb_version os_type arch home : String) (cache : List String)
    (netOk extractOk pocketbase_exists : Bool) : DownloadOutcome :=
  let filename := (get_pocketbase_download_url pb_version os_type arch).2
  if filename ∈ cache then
    let e := extract_phase os_type extractOk pocketbase_exists
    ⟨e.1, some (cachePath home filename), 0, cache, e.2⟩
  else if netOk then
    let e := extract_phase os_type extractOk pocketbase_exists
    ⟨e.1, some (cachePath home filename), 1, filename :: cache, e.2⟩
  else
    ⟨false, none, 1, cache, none⟩

/-- Helper: a successful attempt never yields an empty list, because an
empty filtered result raises instead of returning. -/
theorem attemptVersions_ne_nil (resp : Option (List Release)) (vs : List String)
    (h : attemptVersions resp = some vs) : vs ≠ [] := by
  cases resp with
  | none => exact Option.noConfusion h
  | some releases =>
    simp only [attemptVersions] at h
    split at h
    · exact Option.noConfusion h
    · rename_i he
      have hvs := (Option.some_inj.mp h).symm
      subst hvs
      have hne : (releases.filter (fun r => !r.prerelease)).map Release.tag_name ≠ [] := by
        simpa using he
      simp [List.take_eq_nil_iff, hne]

/-- Helper: every successful outcome of the retry loop is a non-empty list. -/
theorem runAttempts_ne_nil (responses : Nat → Option (List Release)) (fuel : Nat) :
    ∀ attempt vs, (runAttempts responses attempt fuel).outcome = some vs → vs ≠ [] := by
  induction fuel with
  | zero => intro attempt vs h; exact Option.noConfusion h
  | succ n ih =>
    intro attempt vs h
    simp only [runAttempts] at h
    cases ha : attemptVersions (responses attempt) with
    | some ws =>
      rw [ha] at h
      simp at h
      exact h ▸ attemptVersions_ne_nil _ _ ha
    | none =>
      rw [ha] at h
      by_cases hf : n = 0
      · subst hf; simp at h
      · simp only [hf, if_false] at h
        exact ih (attempt + 1) vs h

/-- C3: on sustained failure of the remote listing, `get_pocketbase_versions`
makes exactly 3 attempts, sleeps a fixed 1 second after each failed attempt
except the last, and then returns the hardcoded non-empty fallback list
instead of failing. -/
theorem get_pocketbase_versions_sustained_failure
    (responses : Nat → Option (List Release))
    (h : ∀ i, i < max_retries → attemptVersions (responses i) = none) :
    get_pocketbase_versions responses = ⟨defaultVersions, 3, [1, 1]⟩ ∧
    defaultVersions ≠ [] := by
  have h0 := h 0 (by decide)
  have h1 := h 1 (by decide)
  have h2 := h 2 (by decide)
  refine ⟨?_, by decide⟩
  simp [get_pocketbase_versions, max_retries, runAttempts, h0, h1, h2]

/-- Witness for C3 at the everywhere-failing network. -/
theorem get_pocketbase_versions_sustained_failure_witness :
    get_pocketbase_versions (fun _ => none) = ⟨defaultVersions, 3, [1, 1]⟩ ∧
    defaultVersions ≠ [] :=
  get_pocketbase_versions_sustained_failure (fun _ => none) (fun _ _ => rfl)

/-- C4: a successful catalog attempt returns only tags of entries whose
prerelease flag is false, at most 15 of them, in the remote order (the
result is the tag image of a sublist of the releases). -/
theorem attemptVersions_filter_truncate (releases : List Release) (vs : List String)
    (h : attemptVersions (some releases) = some vs) :
    vs.length ≤ 15 ∧
    ∃ l, List.Sublist l releases ∧ (∀ r ∈ l, r.prerelease = false) ∧
      vs = l.map Release.tag_name := by
  have h2 : vs = ((releases.filter (fun r => !r.prerelease)).map Release.tag_name).take 15 := by
    simp only [attemptVersions] at h
    split at h
    · exact Option.noConfusion h
    · exact (Option.some_inj.mp h).symm
  subst h2
  refine ⟨?_, (releases.filter (fun r => !r.prerelease)).take 15, ?_, ?_, ?_⟩
  · rw [List.length_take]
    exact min_le_left _ _
  · exact (List.take_sublist _ _).trans (List.filter_sublist _)
  · intro r hr
    have := List.of_mem_filter (List.mem_of_mem_take hr)
    simpa using this
  · exact (List.map_take _ _ _).symm

/-- Witness for C4 on a two-entry remote list with one prerelease. -/
theorem attemptVersions_filter_truncate_witness :
    (["v1"] : List String).length ≤ 15 ∧
    ∃ l, List.Sublist l [Release.mk "v1" false, Release.mk "v2" true] ∧
      (∀ r ∈ l, r.prerelease = false) ∧
      (["v1"] : List String) = l.map Release.tag_name :=
  attemptVersions_filter_truncate [Release.mk "v1" false, Release.mk "v2" true]
    ["v1"] (by decide)

/-- C9: every terminating outcome of `get_pocketbase_versions` is non-empty
(a successful attempt is guarded against emptiness and the fallback list has
nine entries), so the sentinel `latest` branch of `select_version` is never
taken on a catalog result. -/
theorem get_pocketbase_versions_ne_nil (responses : Nat → Option (List Release))
    (choice : Nat) :
    (get_pocketbase_versions responses).versions ≠ [] ∧
    (select_version_catalog (get_pocketbase_versions responses).versions choice).1 =
      false := by
  have hne : (get_pocketbase_versions responses).versions ≠ [] := by
    unfold get_pocketbase_versions
    cases ho : (runAttempts responses 0 max_retries).outcome with
    | some vs => simpa [ho] using runAttempts_ne_nil responses max_retries 0 vs ho
    | none => simp [ho, defaultVersions]
  refine ⟨hne, ?_⟩
  simp [select_version_catalog, hne]

/-- C10: version identifiers that are not of the `vMAJOR.MINOR.PATCH` shape,
such as `v1`, `v12345` and `v1..2`, are nevertheless accepted by the
validation and used as the selected version. -/
theorem version_valid_loose :
    version_valid "v1" = true ∧ version_valid "v12345" = true ∧
    version_valid "v1..2" = true ∧
    select_version_route (some "v1") = VersionRoute.fromArgs "v1" ∧
    select_version_route (some "v12345") = VersionRoute.fromArgs "v12345" ∧
    select_version_route (some "v1..2") = VersionRoute.fromArgs "v1..2" := by decide

/-- C5: an externally supplied version is accepted exactly when it starts
with the character `v` and its remainder with all dots removed is a
nonempty string of digits; `latest`, `1.2.3` and `v1.2.x` are rejected and
routed to catalog-based selection. -/
theorem version_valid_spec (s : String) :
    (version_valid s = true ↔
      ((∃ rest, s.data = 'v' :: rest) ∧
        (removeDots (pyTail s)).data ≠ [] ∧
        ∀ c ∈ (removeDots (pyTail s)).data, c.isDigit = true)) ∧
    version_valid "latest" = false ∧ version_valid "1.2.3" = false ∧
    version_valid "v1.2.x" = false ∧
    select_version_route (some "latest") = VersionRoute.fromCatalog ∧
    select_version_route (some "1.2.3") = VersionRoute.fromCatalog ∧
    select_version_route (some "v1.2.x") = VersionRoute.fromCatalog := by
  refine ⟨?_, by decide, by decide, by decide, by decide, by decide, by decide⟩
  cases s with
  | mk data =>
    cases data with
    | nil => simp [version_valid, startsWithV]
    | cons c t =>
      simp [version_valid, startsWithV, pyIsdigit, Bool.and_eq_true,
        List.all_eq_true, List.isEmpty_iff, and_assoc]

/-- C6: the platform identifier maps the recognized OS strings to
themselves and the recognized architecture strings to `amd64`/`arm64`, and
is total: every unrecognized string falls back to `linux` and `amd64`. -/
theorem platform_map_spec (os arch : String)
    (hos1 : os ≠ "linux") (hos2 : os ≠ "darwin") (hos3 : os ≠ "windows")
    (ha1 : arch ≠ "x86_64") (ha2 : arch ≠ "amd64") (ha3 : arch ≠ "arm64") :
    osName "linux" = "linux" ∧ osName "darwin" = "darwin" ∧
    osName "windows" = "windows" ∧ osName os = "linux" ∧
    archName "x86_64" = "amd64" ∧ archName "amd64" = "amd64" ∧
    archName "arm64" = "arm64" ∧ archName arch = "amd64" := by
  refine ⟨by decide, by decide, by decide, ?_, by decide, by decide, by decide, ?_⟩
  · simp [osName, os_map, dictGet, beq_iff_eq, Ne.symm hos1, Ne.symm hos2, Ne.symm hos3]
  · simp [archName, arch_map, dictGet, beq_iff_eq, Ne.symm ha1, Ne.symm ha2,
      Ne.symm ha3]

/-- Witness for C6 at the unrecognized pair `freebsd`/`riscv64`. -/
theorem platform_map_spec_witness :
    osName "linux" = "linux" ∧ osName "darwin" = "darwin" ∧
    osName "windows" = "windows" ∧ osName "freebsd" = "linux" ∧
    archName "x86_64" = "amd64" ∧ archName "amd64" = "amd64" ∧
    archName "arm64" = "arm64" ∧ archName "riscv64" = "amd64" :=
  platform_map_spec "freebsd" "riscv64" (by decide) (by decide) (by decide)
    (by decide) (by decide) (by decide)

/-- C7 fails as stated: a CLI-supplied port 80 makes `main` print an error
and exit with status 1 instead of substituting the default 8090. -/
theorem main_port_check_counterexample :
    main_port_check (some 80) = MainPortCheck.exit 1 ∧
    MainPortCheck.exit 1 ≠ MainPortCheck.proceed (some 8090) := by decide

/-- C7 amended: the `select_port` validation substitutes the default 8090
for every out-of-range port value it sees, while `main` rejects an
out-of-range CLI port by exiting the process with status 1. -/
theorem port_validation_spec (p : Int) (h : ¬(1024 ≤ p ∧ p ≤ 65535)) :
    select_port_validate p = 8090 ∧
    main_port_check (some p) = MainPortCheck.exit 1 := by
  constructor
  · simp [select_port_validate, h]
  · simp [main_port_check, h]

/-- Witness for C7 amended at port 80. -/
theorem port_validation_spec_witness :
    select_port_validate 80 = 8090 ∧
    main_port_check (some 80) = MainPortCheck.exit 1 :=
  port_validation_spec 80 (by decide)

/-- C8 fails as stated: on a `freebsd` host the PlatformTag OS component is
`linux` (the documented fallback), extraction succeeds and the `pocketbase`
file exists, yet no permission step runs, because the code tests the raw
`os_type` string rather than the mapped PlatformTag. -/
theorem extract_chmod_counterexample :
    osName "freebsd" = "linux" ∧ (extract_phase "freebsd" true true).2 = none := by
  decide

/-- C8 amended: after a successful extract, the chmod to mode octal 755
happens exactly when the raw host OS string is `linux` or `darwin` and the
`pocketbase` file exists directly under the destination; under the
`windows` string no permission step is performed. -/
theorem extract_chmod_spec (os : String) (px : Bool)
    (h : os = "linux" ∨ os = "darwin") :
    ((extract_phase os true px).2 = if px then some 0o755 else none) ∧
    (extract_phase "windows" true px).2 = none := by
  rcases h with h | h <;> subst h <;> cases px <;> exact ⟨rfl, rfl⟩

/-- Witness for C8 amended on a linux host with the file present. -/
theorem extract_chmod_spec_witness :
    ((extract_phase "linux" true true).2 = if true then some 0o755 else none) ∧
    (extract_phase "windows" true true).2 = none :=
  extract_chmod_spec "linux" true (Or.inl rfl)

/-- C2 fails as stated: `lstrip` removes every leading `v`, so the version
string `vv0.30.3` yields a filename different from the one built by
stripping a single leading `v` as the claim words it. -/
theorem locator_lstrip_counterexample :
    (get_pocketbase_download_url "vv0.30.3" "linux" "x86_64").2 ≠
      spec_filename "vv0.30.3" "linux" "x86_64" := by decide

/-- C2 amended: the locator is a deterministic pure function of version and
platform strings; the numeric component is the version with ALL leading `v`
characters removed — which coincides with stripping one leading `v` for
every version that does not begin with two — the filename and url have the
stated shape, and `v0.30.3` on linux/amd64 yields
`pocketbase_0.30.3_linux_amd64.zip`. -/
theorem get_pocketbase_download_url_spec (v os arch : String)
    (h : v.data.take 2 ≠ ['v', 'v']) :
    (get_pocketbase_download_url v os arch).2 =
      "pocketbase_" ++ lstripV v ++ "_" ++ osName os ++ "_" ++ archName arch ++
        ".zip" ∧
    (get_pocketbase_download_url v os arch).1 =
      "https://github.com/pocketbase/pocketbase/releases/download/" ++ v ++ "/" ++
        (get_pocketbase_download_url v os arch).2 ∧
    lstripV v = stripOneLeadingV v ∧
    (get_pocketbase_download_url "v0.30.3" "linux" "x86_64").2 =
      "pocketbase_0.30.3_linux_amd64.zip" := by
  refine ⟨rfl, rfl, ?_, by decide⟩
  cases v with
  | mk data =>
    cases data with
    | nil => rfl
    | cons c t =>
      by_cases hc : c = 'v'
      · subst hc
        cases t with
        | nil => rfl
        | cons c2 t2 =>
          by_cases hc2 : c2 = 'v'
          · exact absurd (by subst hc2; rfl) h
          · simp [lstripV, stripOneLeadingV, List.dropWhile_cons, hc2]
      · simp [lstripV, stripOneLeadingV, List.dropWhile_cons, hc]

/-- Witness for C2 amended at `v0.30.3` on linux/amd64. -/
theorem get_pocketbase_download_url_spec_witness :
    (get_pocketbase_download_url "v0.30.3" "linux" "x86_64").2 =
      "pocketbase_" ++ lstripV "v0.30.3" ++ "_" ++ osName "linux" ++ "_" ++
        archName "x86_64" ++ ".zip" ∧
    (get_pocketbase_download_url "v0.30.3" "linux" "x86_64").1 =
      "https://github.com/pocketbase/pocketbase/releases/download/" ++ "v0.30.3" ++
        "/" ++ (get_pocketbase_download_url "v0.30.3" "linux" "x86_64").2 ∧
    lstripV "v0.30.3" = stripOneLeadingV "v0.30.3" ∧
    (get_pocketbase_download_url "v0.30.3" "linux" "x86_64").2 =
      "pocketbase_0.30.3_linux_amd64.zip" :=
  get_pocketbase_download_url_spec "v0.30.3" "linux" "x86_64" (by decide)

/-- C1: when the cache already holds the artifact filename, acquisition
returns the cached path with zero network transfers, whatever the network
would do; starting from a cache without it, two acquisitions of the same
version and platform perform exactly one transfer in total, the second
being served from the cache. -/
theorem download_pocketbase_idempotent (v os arch home : String)
    (cache : List String) (n1 e1 e2 px1 px2 : Bool) :
    ((get_pocketbase_download_url v os arch).2 ∈ cache →
      (download_pocketbase v os arch home cache n1 e1 px1).transfers = 0 ∧
      (download_pocketbase v os arch home cache n1 e1 px1).zipPath =
        some (cachePath home (get_pocketbase_download_url v os arch).2)) ∧
    ((get_pocketbase_download_url v os arch).2 ∉ cache →
      (download_pocketbase v os arch home cache true e1 px1).transfers = 1 ∧
      (download_pocketbase v os arch home
        (download_pocketbase v os arch home cache true e1 px1).cache
        true e2 px2).transfers = 0 ∧
      (download_pocketbase v os arch home
        (download_pocketbase v os arch home cache true e1 px1).cache
        true e2 px2).zipPath =
        some (cachePath home (get_pocketbase_download_url v os arch).2)) := by
  constructor
  · intro hmem
    simp [download_pocketbase, hmem]
  · intro hmem
    have h1 : (download_pocketbase v os arch home cache true e1 px1).cache =
        (get_pocketbase_download_url v os arch).2 :: cache := by
      simp [download_pocketbase, hmem]
    refine ⟨by simp [download_pocketbase, hmem], ?_, ?_⟩
    · rw [h1]
      simp [download_pocketbase]
    · rw [h1]
      simp [download_pocketbase]

/-- Witness for C1: cache hit with zero transfers, then the cold-cache pair
of calls with one transfer followed by a cache hit. -/
theorem download_pocketbase_idempotent_witness :
    (download_pocketbase "v0.30.3" "linux" "x86_64" "/home/user"
      ["pocketbase_0.30.3_linux_amd64.zip"] true true true).transfers = 0 ∧
    (download_pocketbase "v0.30.3" "linux" "x86_64" "/home/user" []
      true true true).transfers = 1 ∧
    (download_pocketbase "v0.30.3" "linux" "x86_64" "/home/user"
      (download_pocketbase "v0.30.3" "linux" "x86_64" "/home/user" []
        true true true).cache true true true).transfers = 0 :=
  ⟨((download_pocketbase_idempotent "v0.30.3" "linux" "x86_64" "/home/user"
      ["pocketbase_0.30.3_linux_amd64.zip"] true true true true true).1
      (by decide)).1,
   ((download_pocketbase_idempotent "v0.30.3" "linux" "x86_64" "/home/user"
      [] true true true true true).2 (by decide)).1,
   ((download_pocketbase_idempotent "v0.30.3" "linux" "x86_64" "/home/user"
      [] true true true true true).2 (by decide)).2.1⟩

end PbSetup
